import Mathlib

/-!
Verification development for the session/prompt-execution core of the
`ollama-acp` adapter (`src/ollama_acp/agent.py`).

The Python code is shallowly embedded as executable Lean definitions:

* `extract` models `OllamaAgent._extract_content_from_prompt` (agent.py,
  lines 220-250).  Prompt blocks are duck-typed in Python: an *object*
  block is described by which attributes it has (`text`, `type`, `data`),
  a *dict* block by its keys.  The external `base64.b64decode` routine is
  modelled abstractly by a parameter `decode : String → Option Bytes`
  (`none` means the library raises, i.e. the data is undecodable).
* `streamDrive` models the chunk loop of
  `OllamaAgent._stream_ollama_response` (lines 252-277) for a backend
  stream that yields a given list of chunks and then ends: it returns the
  accumulated `full_response` together with the list of texts delivered
  to the update sink (`session_update`), in delivery order.
* `handle_prompt` / `taskRun` model `OllamaAgent.handle_prompt`
  (lines 178-218) run as an `asyncio.Task`, `promptCall` models
  `OllamaAgent.prompt` (lines 145-176) for a single call run to
  completion, and a small-step machine (`MState`, `step`) models the
  asyncio interleaving of concurrent `prompt` calls, task cancellation
  and the `cancel` handler (lines 283-287).
-/

/-- Raw image bytes (the result of `base64.b64decode`). -/
abbrev Bytes := List Nat

/-- A prompt block as `_extract_content_from_prompt` sees it.

`obj tx ty da` is a non-dict Python object: `tx` is `block.text` when the
object has a `text` attribute (`hasattr(block, "text")`), `ty` is
`block.type` when it has a `type` attribute, `da` is `block.data` when it
has a `data` attribute (`getattr(block, "data", "")` yields `da.getD ""`).

`dict tx ty da` is a Python `dict` with optional keys `"text"`, `"type"`,
`"data"`; a plain dict instance has no `text`/`type`/`data` *attributes*,
so it only enters the `isinstance(block, dict)` branch. -/
inductive Block where
  | obj (tx ty da : Option String)
  | dict (tx ty da : Option String)
deriving DecidableEq, Repr

/-- One iteration of the `for block in prompt` loop of
`_extract_content_from_prompt` (agent.py lines 225-248), acting on the
accumulator `(prompt_text, images)`. -/
def extractStep (decode : String → Option Bytes) (acc : String × List Bytes)
    (b : Block) : String × List Bytes :=
  match b with
  | .obj tx ty da =>
      -- `if hasattr(block, "text"): prompt_text += block.text`
      -- (the `elif isinstance(block, dict)` branch is dead for objects)
      let acc1 := match tx with
        | some t => (acc.1 ++ t, acc.2)
        | none => acc
      -- separate statement: `if hasattr(block, "type") and block.type == "image"`
      if ty = some "image" then
        let d := da.getD ""
        if d = "" then acc1
        else
          match decode d with
          | some bs => (acc1.1, acc1.2 ++ [bs])
          | none => acc1  -- decode failure is logged and the image skipped
      else acc1
  | .dict tx ty da =>
      -- `hasattr(block, "text")` is false for a dict instance, so only the
      -- `isinstance(block, dict)` branch runs; the trailing object-image
      -- check is also dead (`hasattr(block, "type")` is false for dicts).
      if ty = some "text" then (acc.1 ++ tx.getD "", acc.2)
      else if ty = some "image" then
        let d := da.getD ""
        if d = "" then acc
        else
          match decode d with
          | some bs => (acc.1, acc.2 ++ [bs])
          | none => acc
      else acc

/-- Python's whitespace class for `str.strip()` (ASCII part). -/
def isPyWhitespace (c : Char) : Bool :=
  c = ' ' || c = '\t' || c = '\n' || c = '\r' || c = '\x0b' || c = '\x0c'

/-- Python's `str.strip()`: drop leading and trailing whitespace. -/
def pyStrip (s : String) : String :=
  String.mk (((s.data.dropWhile isPyWhitespace).reverse.dropWhile isPyWhitespace).reverse)

/-- `OllamaAgent._extract_content_from_prompt` (agent.py lines 220-250):
fold the per-block step over the prompt, then `prompt_text.strip()` is
applied to the final concatenation only. -/
def extract (decode : String → Option Bytes) (blocks : List Block) :
    String × List Bytes :=
  let r := blocks.foldl (extractStep decode) ("", [])
  (pyStrip r.1, r.2)

/-- The text contributed by a single block: an object block contributes its
`text` attribute whenever it has one; a dict block contributes its
`"text"` value when its `"type"` is `"text"`. -/
def textContent : Block → String
  | .obj tx _ _ => tx.getD ""
  | .dict tx ty _ => if ty = some "text" then tx.getD "" else ""

/-- Spec-side characterisation for the extractor: the concatenation, in
source order, of all text-block contents (no per-block trimming). -/
def concatTexts : List Block → String
  | [] => ""
  | b :: bs => textContent b ++ concatTexts bs

/-- An image block whose data is present, non-empty and undecodable (and
which contributes no text): its entire loop iteration is a no-op apart
from the logged warning. -/
def undecodableImageBlock (decode : String → Option Bytes) : Block → Prop
  | .obj tx ty da =>
      tx = none ∧ ty = some "image" ∧ da.getD "" ≠ "" ∧ decode (da.getD "") = none
  | .dict _ ty da =>
      ty = some "image" ∧ da.getD "" ≠ "" ∧ decode (da.getD "") = none

instance (decode : String → Option Bytes) (b : Block) :
    Decidable (undecodableImageBlock decode b) := by
  cases b <;> simp only [undecodableImageBlock] <;> infer_instance

/-- One chunk of the backend stream, as the loop in
`_stream_ollama_response` inspects it: `none` models a chunk without a
`'message'` key; `some mc` a chunk whose message has content
`mc.getD ""` (`chunk['message'].get('content', '')`). -/
abbrev Chunk := Option (Option String)

/-- The chunk loop of `_stream_ollama_response` (agent.py lines 264-277)
for a stream that yields `chunks` and then terminates normally: returns
`full_response` together with the list of contents passed to
`session_update`, in delivery order. -/
def streamDrive (chunks : List Chunk) : String × List String :=
  chunks.foldl
    (fun acc c =>
      match c with
      | none => acc
      | some mc =>
          let content := mc.getD ""
          if content = "" then acc
          else (acc.1 ++ content, acc.2 ++ [content]))
    ("", [])

/-- The content a chunk delivers to the sink, if any: present exactly when
the chunk has a message whose content is non-empty. -/
def deliveredContent : Chunk → Option String
  | none => none
  | some mc => if mc.getD "" = "" then none else some (mc.getD "")

/-- Concatenation of a list of strings in order. -/
def concatList : List String → String
  | [] => ""
  | s :: l => s ++ concatList l


-- ## 2. Session state, prompt handling and the prompt call
-- (agent.py lines 34-39, 145-218, 252-287)

/-- A conversation message as built by `handle_prompt`: the `images` field
is present only when the extracted image list is non-empty (agent.py
lines 189-196); assistant messages never carry images. -/
structure Message where
  role : String
  content : String
  images : Option (List Bytes) := none
deriving DecidableEq, Repr

/-- `AgentSession` (agent.py lines 34-39): the pending task is identified
by a task id (`none` when no prompt is in flight). -/
structure AgentSession where
  pending_prompt : Option Nat := none
  conversation_history : List Message := []
deriving DecidableEq, Repr

/-- A message sent to the update sink (`self._conn.session_update`).  Both
code paths send an agent-message-text update; the constructor records
which code path emitted it: `chunk` the streaming loop (agent.py
line 272), `errorNotice` the error handler of `handle_prompt`
(line 213). -/
inductive SinkMsg where
  | chunk (s : String)
  | errorNotice (s : String)
deriving DecidableEq, Repr

/-- Whether a sink message is the explanatory error notice. -/
def SinkMsg.isError : SinkMsg → Bool
  | .errorNotice _ => true
  | .chunk _ => false

/-- The error text sent on a backend failure (agent.py line 216). -/
def errText (e : String) : String := "Xin lỗi, đã có lỗi xảy ra: " ++ e

/-- What the backend stream does during one execution of the `try` block
of `handle_prompt`: it yields `chunks` and then either ends normally,
raises a backend/transport error `err`, or the awaiting task is cancelled
(`asyncio.CancelledError` is raised at the suspension point). -/
inductive StreamEvent where
  | completes (chunks : List Chunk)
  | fails (chunks : List Chunk) (err : String)
  | cancelledDuring (chunks : List Chunk)
deriving DecidableEq, Repr

/-- How the `asyncio.Task` wrapping `handle_prompt` runs: either the
coroutine executes and its stream sees a `StreamEvent`, or the task is
cancelled before its first scheduling, in which case `CancelledError` is
raised at the coroutine's entry point and none of the body runs. -/
inductive RunEvent where
  | runs (e : StreamEvent)
  | cancelledBeforeStart
deriving DecidableEq, Repr

/-- How control leaves `handle_prompt`: a normal return, or an escaping
`asyncio.CancelledError` (which, being a `BaseException`, is *not* caught
by the `except Exception` handler on line 211). -/
inductive HandleResult where
  | returned
  | raisedCancelled
deriving DecidableEq, Repr

/-- `OllamaAgent.handle_prompt` (agent.py lines 178-218) for a given
stream behaviour: returns the updated session, the sink messages emitted
(in order) and how control left the coroutine.  The sink deliveries
themselves are assumed not to fail (the `session_update` transport is out
of scope), so the `except` handler on line 211 never re-raises and a
backend failure results in a normal return after the error notice. -/
def handle_prompt (decode : String → Option Bytes) (blocks : List Block)
    (s : AgentSession) (ev : StreamEvent) :
    AgentSession × List SinkMsg × HandleResult :=
  let prompt_text := (extract decode blocks).1
  let images := (extract decode blocks).2
  -- `if not prompt_text and not images: return` (line 185)
  if prompt_text = "" ∧ images = [] then (s, [], .returned)
  else
    let userMsg : Message :=
      ⟨"user", prompt_text, if images = [] then none else some images⟩
    let s1 := { s with conversation_history := s.conversation_history ++ [userMsg] }
    match ev with
    | .completes chunks =>
        let r := streamDrive chunks
        ({ s1 with conversation_history :=
             s1.conversation_history ++ [⟨"assistant", r.1, none⟩] },
         r.2.map SinkMsg.chunk, .returned)
    | .fails chunks err =>
        -- the chunks delivered before the failure, then the single notice
        let r := streamDrive chunks
        (s1, r.2.map SinkMsg.chunk ++ [.errorNotice (errText err)], .returned)
    | .cancelledDuring chunks =>
        -- CancelledError escapes; the user message is already appended
        let r := streamDrive chunks
        (s1, r.2.map SinkMsg.chunk, .raisedCancelled)

/-- The `asyncio.Task` created on agent.py line 162, running
`handle_prompt`: a task whose cancellation is requested before the event
loop first schedules it never executes any of the coroutine body
(`Task.__step` throws `CancelledError` into the fresh coroutine), so the
session is untouched and the awaiter observes a cancelled task. -/
def taskRun (decode : String → Option Bytes) (blocks : List Block)
    (s : AgentSession) : RunEvent → AgentSession × List SinkMsg × HandleResult
  | .runs e => handle_prompt decode blocks s e
  | .cancelledBeforeStart => (s, [], .raisedCancelled)

/-- `PromptResponse.stop_reason` values produced by `prompt`. -/
inductive StopReason where
  | endTurn
  | cancelled
deriving DecidableEq, Repr

/-- The result of a `prompt` call: a normal `PromptResponse`, or an
exception re-raised by the `except Exception` handler on agent.py
lines 170-172.  With reliable sink deliveries the re-raise path is
unreachable, because `handle_prompt` catches every backend exception
itself. -/
inductive PromptResult where
  | response (r : StopReason)
  | raisedError (msg : String)
deriving DecidableEq, Repr

/-- The session registry `self._sessions` (agent.py line 54), modelled as
a map from session id to session. -/
def Registry := String → Option AgentSession

/-- Dictionary update `self._sessions[session_id] = session`. -/
def registrySet (r : Registry) (sid : String) (s : AgentSession) : Registry :=
  fun x => if x = sid then some s else r x

/-- `OllamaAgent.prompt` (agent.py lines 145-176) for a single call that
runs to completion, with the task's behaviour given by `ev`: look the
session up, lazily creating and registering an empty one when the id is
unknown (lines 152-155); run `handle_prompt` as a task and await it;
translate an escaping `CancelledError` into a `cancelled` response and a
normal return into `end_turn` (lines 166-176); the `finally` clause
resets `pending_prompt` to `None`.  Returns the updated registry, the
sink messages and the call's result.  (The concurrent interleaving of two
`prompt` calls is modelled separately by `MState`/`step` below.) -/
def promptCall (decode : String → Option Bytes) (r : Registry) (sid : String)
    (blocks : List Block) (ev : RunEvent) :
    Registry × List SinkMsg × PromptResult :=
  let rs : Registry × AgentSession :=
    match r sid with
    | some s => (r, s)
    | none =>
        let s : AgentSession := {}
        (registrySet r sid s, s)
  let t := taskRun decode blocks rs.2 ev
  let s2 := { t.1 with pending_prompt := none }
  let r2 := registrySet rs.1 sid s2
  match t.2.2 with
  | .raisedCancelled => (r2, t.2.1, .response .cancelled)
  | .returned => (r2, t.2.1, .response .endTurn)

/-- The user message a prompt with non-empty extracted content appends. -/
def userMsgOf (decode : String → Option Bytes) (blocks : List Block) : Message :=
  ⟨"user", (extract decode blocks).1,
   if (extract decode blocks).2 = [] then none else some (extract decode blocks).2⟩

/-- The guard on agent.py line 185, negated: the prompt has extractable
content (`prompt_text` non-empty after stripping, or at least one
image). -/
def nonemptyContent (decode : String → Option Bytes) (blocks : List Block) : Prop :=
  ¬((extract decode blocks).1 = "" ∧ (extract decode blocks).2 = [])

instance (decode : String → Option Bytes) (blocks : List Block) :
    Decidable (nonemptyContent decode blocks) := by
  unfold nonemptyContent
  infer_instance

/-- A base64 decoder that fails on every input (for concrete witnesses). -/
def decNone : String → Option Bytes := fun _ => none

/-- A base64 decoder that succeeds on one known input. -/
def decTbl : String → Option Bytes :=
  fun s => if s = "aGk=" then some [104, 105] else none

/-- The empty registry. -/
def regEmpty : Registry := fun _ => none

-- ## 3. Concurrency machine for `prompt`, tasks and `cancel`
-- (agent.py lines 145-176 and 283-287 under the asyncio event loop)

/-- Lifecycle status of the `asyncio.Task` wrapping `handle_prompt`. -/
inductive TStatus where
  | created
  | running
  | doneOk
  | doneCancelled
deriving DecidableEq, Repr

/-- An `asyncio.Task`: its status, and whether `Task.cancel()` has been
called on it while it was not yet finished. -/
structure TaskCtl where
  status : TStatus
  cancelRequested : Bool
deriving DecidableEq, Repr

/-- Progress of one `prompt` call: `entered` before its body runs,
`awaiting t` while suspended on `await session.pending_prompt` (task
`t`), `finished r` after returning `PromptResponse(stop_reason=r)`. -/
inductive PStatus where
  | entered
  | awaiting (t : Nat)
  | finished (r : StopReason)
deriving DecidableEq, Repr

/-- State of one session's concurrency-relevant data under the event
loop: `pending` is `session.pending_prompt`, `tasks` the tasks created so
far (task ids are list indices), `prompts` the in-flight `prompt`
calls. -/
structure MState where
  pending : Option Nat
  tasks : List TaskCtl
  prompts : List PStatus
deriving DecidableEq, Repr

/-- `Task.cancel()` (agent.py lines 159 and 287): requests cancellation;
a no-op on an already-finished task. -/
def requestCancel (s : MState) (t : Nat) : MState :=
  match s.tasks[t]? with
  | some c =>
      if c.status = .doneOk ∨ c.status = .doneCancelled then s
      else { s with tasks := s.tasks.set t { c with cancelRequested := true } }
  | none => s

/-- An event-loop step.  `promptBody p` runs the synchronous part of
`prompt` (lines 157-164: cancel the pending task if any, create the new
task, store it in `pending_prompt`, then suspend on awaiting it).
`taskStart t` is the loop first scheduling task `t` (the coroutine body
starts; `handle_prompt` appends the user message and suspends inside the
stream).  `taskComplete t` is the task finishing normally.
`taskCancelDeliver t` is the loop delivering a requested cancellation
(`CancelledError` is raised in the coroutine, which unwinds).
`promptResume p` resumes a `prompt` call whose awaited task finished:
`except asyncio.CancelledError` yields a `cancelled` response, otherwise
`end_turn`, and the `finally` clause sets `pending_prompt = None`
unconditionally (line 174).  `cancelCall` is `OllamaAgent.cancel`
(lines 283-287). -/
inductive EvAction where
  | promptBody (p : Nat)
  | taskStart (t : Nat)
  | taskComplete (t : Nat)
  | taskCancelDeliver (t : Nat)
  | promptResume (p : Nat)
  | cancelCall
deriving DecidableEq, Repr

/-- One transition of the event-loop model; an action whose precondition
does not hold leaves the state unchanged. -/
def step (s : MState) : EvAction → MState
  | .promptBody p =>
      match s.prompts[p]? with
      | some .entered =>
          let s1 := match s.pending with
            | some t0 => requestCancel s t0
            | none => s
          let tid := s1.tasks.length
          { s1 with
              tasks := s1.tasks ++ [⟨.created, false⟩],
              pending := some tid,
              prompts := s1.prompts.set p (.awaiting tid) }
      | _ => s
  | .taskStart t =>
      match s.tasks[t]? with
      | some ⟨.created, false⟩ =>
          { s with tasks := s.tasks.set t ⟨.running, false⟩ }
      | _ => s
  | .taskComplete t =>
      match s.tasks[t]? with
      | some ⟨.running, false⟩ =>
          { s with tasks := s.tasks.set t ⟨.doneOk, false⟩ }
      | _ => s
  | .taskCancelDeliver t =>
      match s.tasks[t]? with
      | some ⟨.created, true⟩ =>
          { s with tasks := s.tasks.set t ⟨.doneCancelled, true⟩ }
      | some ⟨.running, true⟩ =>
          { s with tasks := s.tasks.set t ⟨.doneCancelled, true⟩ }
      | _ => s
  | .promptResume p =>
      match s.prompts[p]? with
      | some (.awaiting t) =>
          match s.tasks[t]? with
          | some c =>
              match c.status with
              | .doneOk =>
                  { s with prompts := s.prompts.set p (.finished .endTurn),
                           pending := none }
              | .doneCancelled =>
                  { s with prompts := s.prompts.set p (.finished .cancelled),
                           pending := none }
              | _ => s
          | none => s
      | _ => s
  | .cancelCall =>
      match s.pending with
      | some t => requestCancel s t
      | none => s

/-- Run a sequence of event-loop steps. -/
def runSteps (s : MState) (acts : List EvAction) : MState :=
  acts.foldl step s

/-- Initial state for the two-concurrent-`prompt`-calls scenario: no task
yet, no pending prompt, two `prompt` calls dispatched on the same
session. -/
def demoInit : MState := ⟨none, [], [.entered, .entered]⟩

/-- Number of Runs currently executing their coroutine body. -/
def activeRuns (s : MState) : Nat :=
  s.tasks.countP (fun c => c.status = .running)


-- ## 4. Helper lemmas

-- ### String helper lemmas

theorem strAppendEmpty (s : String) : s ++ "" = s := by
  cases s with
  | mk data => show String.mk (data ++ []) = String.mk data
               rw [List.append_nil]

theorem strEmptyAppend (s : String) : "" ++ s = s := by
  cases s with
  | mk data => rfl

theorem strAppendAssoc (a b c : String) : a ++ b ++ c = a ++ (b ++ c) := by
  cases a with
  | mk d1 =>
    cases b with
    | mk d2 =>
      cases c with
      | mk d3 =>
        show String.mk (d1 ++ d2 ++ d3) = String.mk (d1 ++ (d2 ++ d3))
        rw [List.append_assoc]

-- ### Fold lemmas for the extractor

theorem extractStep_fst (decode : String → Option Bytes)
    (acc : String × List Bytes) (b : Block) :
    (extractStep decode acc b).1 = acc.1 ++ textContent b := by
  cases b with
  | obj tx ty da =>
      cases tx <;> simp only [extractStep, textContent, Option.getD] <;>
        (repeat' split) <;> simp [strAppendEmpty]
  | dict tx ty da =>
      simp only [extractStep, textContent]
      (repeat' split) <;> simp [strAppendEmpty]

theorem extractFold_fst (decode : String → Option Bytes) (blocks : List Block) :
    ∀ acc : String × List Bytes,
      (blocks.foldl (extractStep decode) acc).1 = acc.1 ++ concatTexts blocks := by
  induction blocks with
  | nil => intro acc; simp [concatTexts, strAppendEmpty]
  | cons b bs ih =>
      intro acc
      simp only [List.foldl_cons, concatTexts]
      rw [ih, extractStep_fst, strAppendAssoc]

theorem extractStep_skip (decode : String → Option Bytes)
    (acc : String × List Bytes) (b : Block)
    (h : undecodableImageBlock decode b) :
    extractStep decode acc b = acc := by
  cases b with
  | obj tx ty da =>
      obtain ⟨h1, h2, h3, h4⟩ := h
      subst h1; subst h2
      simp [extractStep, h3, h4]
  | dict tx ty da =>
      obtain ⟨h2, h3, h4⟩ := h
      subst h2
      simp [extractStep, h3, h4]

-- ### Fold lemma for the streaming driver

theorem streamFold (chunks : List Chunk) :
    ∀ a : String, ∀ l : List String,
      chunks.foldl
        (fun acc c =>
          match c with
          | none => acc
          | some mc =>
              let content := mc.getD ""
              if content = "" then acc
              else (acc.1 ++ content, acc.2 ++ [content]))
        (a, l)
      = (a ++ concatList (chunks.filterMap deliveredContent),
         l ++ chunks.filterMap deliveredContent) := by
  induction chunks with
  | nil => intro a l; simp [concatList, strAppendEmpty]
  | cons c cs ih =>
      intro a l
      cases c with
      | none =>
          simp only [List.foldl_cons, List.filterMap_cons, deliveredContent]
          exact ih a l
      | some mc =>
          by_cases hc : mc.getD "" = ""
          · simp only [List.foldl_cons, List.filterMap_cons, deliveredContent,
              if_pos hc, hc]
            exact ih a l
          · simp only [List.foldl_cons, List.filterMap_cons, deliveredContent,
              if_neg hc]
            rw [ih]
            simp only [Prod.mk.injEq, concatList]
            refine ⟨strAppendAssoc _ _ _, by simp⟩

-- ## 5. Claims

/-- Claim C5 (confirmed): for every streaming Run that completes
normally, the text `_stream_ollama_response` returns equals the
concatenation, in arrival order, of exactly the increments it delivered
to the update sink, and those increments are precisely the non-empty
message contents of the chunks in arrival order — none skipped, none
reordered. -/
theorem C5_streamed_text_matches_deliveries (chunks : List Chunk) :
    (streamDrive chunks).1 = concatList (streamDrive chunks).2 ∧
    (streamDrive chunks).2 = chunks.filterMap deliveredContent := by
  unfold streamDrive
  rw [streamFold]
  simp [strEmptyAppend]

/-- Claim C6 (confirmed): for every sequence of prompt blocks, the
extracted prompt text equals the concatenation of all text-block
contents in source order, with whitespace stripped from the final
concatenation only, never from the individual blocks. -/
theorem C6_text_concat_then_strip (decode : String → Option Bytes)
    (blocks : List Block) :
    (extract decode blocks).1 = pyStrip (concatTexts blocks) := by
  show pyStrip (blocks.foldl (extractStep decode) ("", [])).1
      = pyStrip (concatTexts blocks)
  rw [extractFold_fst decode blocks ("", []), strEmptyAppend]

/-- Claim C7 (confirmed): an image block whose data fails to decode is
skipped without aborting extraction — the result over the whole prompt is
exactly the result with that block removed — and a prompt consisting
solely of such a block yields the empty result. -/
theorem C7_undecodable_image_skipped (decode : String → Option Bytes)
    (xs ys : List Block) (b : Block) (h : undecodableImageBlock decode b) :
    extract decode (xs ++ b :: ys) = extract decode (xs ++ ys) ∧
    extract decode [b] = ("", []) := by
  have key : (xs ++ b :: ys).foldl (extractStep decode) ("", [])
      = (xs ++ ys).foldl (extractStep decode) ("", []) := by
    rw [List.foldl_append, List.foldl_cons, extractStep_skip decode _ b h,
      List.foldl_append]
  constructor
  · unfold extract
    rw [key]
  · unfold extract
    simp only [List.foldl_cons, List.foldl_nil]
    rw [extractStep_skip decode _ b h]
    decide

/-- Witness for C7 at a concrete undecodable dict-image block. -/
theorem C7_witness :
    undecodableImageBlock decNone (.dict none (some "image") (some "xx")) ∧
    (extract decNone
        ([.dict (some "hi") (some "text") none] ++
          .dict none (some "image") (some "xx") ::
            [.obj (some " there") none none])
      = extract decNone
          ([.dict (some "hi") (some "text") none] ++ [.obj (some " there") none none]) ∧
     extract decNone [.dict none (some "image") (some "xx")] = ("", [])) :=
  ⟨by decide,
   C7_undecodable_image_skipped decNone [.dict (some "hi") (some "text") none]
     [.obj (some " there") none none] (.dict none (some "image") (some "xx"))
     (by decide)⟩

/-- Claim C10 (confirmed): an object block that both has a `text`
attribute and has `type` equal to `"image"` with non-empty decodable data
contributes twice in one loop iteration: its text is appended to the
prompt text and its decoded bytes are appended to the images list — the
text branch and the object-image branch are not mutually exclusive. -/
theorem C10_obj_block_contributes_twice (decode : String → Option Bytes)
    (t d : String) (bs : Bytes) (acc : String × List Bytes)
    (h1 : d ≠ "") (h2 : decode d = some bs) :
    extractStep decode acc (.obj (some t) (some "image") (some d))
      = (acc.1 ++ t, acc.2 ++ [bs]) ∧
    extract decode [.obj (some t) (some "image") (some d)]
      = (pyStrip t, [bs]) := by
  have hstep : ∀ a : String × List Bytes,
      extractStep decode a (.obj (some t) (some "image") (some d))
        = (a.1 ++ t, a.2 ++ [bs]) := by
    intro a
    simp [extractStep, h1, h2]
  refine ⟨hstep acc, ?_⟩
  unfold extract
  simp only [List.foldl_cons, List.foldl_nil]
  rw [hstep ("", [])]
  simp [strEmptyAppend]

/-- Witness for C10 at a concrete decodable object block carrying text. -/
theorem C10_witness :
    ("aGk=" : String) ≠ "" ∧ decTbl "aGk=" = some [104, 105] ∧
    (extractStep decTbl ("x", [[1]]) (.obj (some "look") (some "image") (some "aGk="))
      = ("x" ++ "look", [[1]] ++ [[104, 105]]) ∧
     extract decTbl [.obj (some "look") (some "image") (some "aGk=")]
      = (pyStrip "look", [[104, 105]])) :=
  ⟨by decide, by decide,
   C10_obj_block_contributes_twice decTbl "look" "aGk=" [104, 105] ("x", [[1]])
     (by decide) (by decide)⟩

/-- Claim C3 (corrected): with non-empty extracted content the history
grows by exactly 2 messages (user then assistant) when the Run completes
normally and by 0 when the extraction is empty, but on cancellation the
growth is 1 (the user message) only when the Run was cancelled during
streaming; a Run whose task is cancelled before it starts executing ends
as `cancelled` with growth 0. -/
theorem C3_history_growth (decode : String → Option Bytes)
    (blocks blocks0 : List Block) (s : AgentSession)
    (chunks cchunks : List Chunk)
    (h : nonemptyContent decode blocks)
    (h1 : (extract decode blocks0).1 = "")
    (h2 : (extract decode blocks0).2 = []) :
    (taskRun decode blocks s (.runs (.completes chunks))).1.conversation_history
      = s.conversation_history ++
          [userMsgOf decode blocks,
           ⟨"assistant", (streamDrive chunks).1, none⟩] ∧
    (taskRun decode blocks s (.runs (.cancelledDuring cchunks))).1.conversation_history
      = s.conversation_history ++ [userMsgOf decode blocks] ∧
    (taskRun decode blocks s (.runs (.cancelledDuring cchunks))).2.2
      = .raisedCancelled ∧
    (taskRun decode blocks s .cancelledBeforeStart).1.conversation_history
      = s.conversation_history ∧
    (taskRun decode blocks s .cancelledBeforeStart).2.2 = .raisedCancelled ∧
    taskRun decode blocks0 s (.runs (.completes chunks)) = (s, [], .returned) := by
  unfold nonemptyContent at h
  refine ⟨?_, ?_, ?_, rfl, rfl, ?_⟩
  · simp [taskRun, handle_prompt, h, userMsgOf]
  · simp [taskRun, handle_prompt, h, userMsgOf]
  · simp [taskRun, handle_prompt, h]
  · simp [taskRun, handle_prompt, h1, h2]

/-- Witness for C3 at a concrete text prompt, a two-chunk stream and an
empty prompt. -/
theorem C3_witness :
    nonemptyContent decNone [Block.dict (some "hello") (some "text") none] ∧
    (extract decNone ([] : List Block)).1 = "" ∧
    (extract decNone ([] : List Block)).2 = [] ∧
    ((taskRun decNone [Block.dict (some "hello") (some "text") none] ⟨none, []⟩
        (.runs (.completes [some (some "wo"), some (some "rld")]))).1.conversation_history
      = ([] : List Message) ++
          [userMsgOf decNone [Block.dict (some "hello") (some "text") none],
           ⟨"assistant",
            (streamDrive [some (some "wo"), some (some "rld")]).1, none⟩] ∧
     (taskRun decNone [Block.dict (some "hello") (some "text") none] ⟨none, []⟩
        (.runs (.cancelledDuring []))).1.conversation_history
      = ([] : List Message) ++
          [userMsgOf decNone [Block.dict (some "hello") (some "text") none]] ∧
     (taskRun decNone [Block.dict (some "hello") (some "text") none] ⟨none, []⟩
        (.runs (.cancelledDuring []))).2.2 = .raisedCancelled ∧
     (taskRun decNone [Block.dict (some "hello") (some "text") none] ⟨none, []⟩
        .cancelledBeforeStart).1.conversation_history = ([] : List Message) ∧
     (taskRun decNone [Block.dict (some "hello") (some "text") none] ⟨none, []⟩
        .cancelledBeforeStart).2.2 = .raisedCancelled ∧
     taskRun decNone ([] : List Block) ⟨none, []⟩
        (.runs (.completes [some (some "wo"), some (some "rld")]))
      = (⟨none, []⟩, [], .returned)) :=
  ⟨by decide, by decide, by decide,
   C3_history_growth decNone [Block.dict (some "hello") (some "text") none] []
     ⟨none, []⟩ [some (some "wo"), some (some "rld")] [] (by decide) (by decide)
     (by decide)⟩

/-- Counterexample for C3 as stated: a prompt with non-empty extracted
content whose Run is cancelled (its task is cancelled before the event
loop first schedules the coroutine, so `CancelledError` is raised at the
coroutine's entry) grows the history by 0 messages, not by exactly 1. -/
theorem C3_counterexample :
    nonemptyContent decNone [Block.dict (some "hello") (some "text") none] ∧
    (taskRun decNone [Block.dict (some "hello") (some "text") none] ⟨none, []⟩
        .cancelledBeforeStart).2.2 = .raisedCancelled ∧
    (taskRun decNone [Block.dict (some "hello") (some "text") none] ⟨none, []⟩
        .cancelledBeforeStart).1.conversation_history.length = 0 := by
  decide

/-- Claim C4 (confirmed): when the backend stream fails mid-generation,
the Run emits the partial-chunk updates followed by exactly one
explanatory error notice, returns normally, and the session history gains
only the user message — no assistant message is appended and the rest of
the session state (`pending_prompt`) is untouched. -/
theorem C4_backend_failure_frame (decode : String → Option Bytes)
    (blocks : List Block) (s : AgentSession) (chunks : List Chunk)
    (err : String) (h : nonemptyContent decode blocks) :
    taskRun decode blocks s (.runs (.fails chunks err))
      = ({ s with conversation_history :=
             s.conversation_history ++ [userMsgOf decode blocks] },
         (streamDrive chunks).2.map SinkMsg.chunk ++ [.errorNotice (errText err)],
         .returned) ∧
    ((streamDrive chunks).2.map SinkMsg.chunk ++
        [SinkMsg.errorNotice (errText err)]).countP SinkMsg.isError = 1 ∧
    ({ s with conversation_history :=
         s.conversation_history ++ [userMsgOf decode blocks] }).pending_prompt
      = s.pending_prompt := by
  unfold nonemptyContent at h
  refine ⟨?_, ?_, rfl⟩
  · simp [taskRun, handle_prompt, h, userMsgOf]
  · simp [List.countP_append, List.countP_map, List.countP_cons, SinkMsg.isError]

/-- Witness for C4 at a concrete failing stream. -/
theorem C4_witness :
    nonemptyContent decNone [Block.obj (some "hi") none none] ∧
    (taskRun decNone [Block.obj (some "hi") none none] ⟨some 7, []⟩
        (.runs (.fails [some (some "par")] "boom"))
      = ({ pending_prompt := some 7,
           conversation_history :=
             [] ++ [userMsgOf decNone [Block.obj (some "hi") none none]] },
         (streamDrive [some (some "par")]).2.map SinkMsg.chunk ++
           [.errorNotice (errText "boom")],
         .returned) ∧
     ((streamDrive [some (some "par")]).2.map SinkMsg.chunk ++
        [SinkMsg.errorNotice (errText "boom")]).countP SinkMsg.isError = 1 ∧
     ({ (⟨some 7, []⟩ : AgentSession) with conversation_history :=
          [] ++ [userMsgOf decNone [Block.obj (some "hi") none none]] }).pending_prompt
      = (⟨some 7, []⟩ : AgentSession).pending_prompt) :=
  ⟨by decide,
   C4_backend_failure_frame decNone [Block.obj (some "hi") none none]
     ⟨some 7, []⟩ [some (some "par")] "boom" (by decide)⟩

/-- Counterexample for C2 as stated: at a concrete prompt whose Run fails
with a backend error, `prompt` returns the normal outcome
`end_turn` — not an error and not `cancelled` — because `handle_prompt`
catches the exception itself (agent.py lines 211-218) and never
re-raises, so the `except Exception ... raise` in `prompt` never fires
for backend failures. -/
theorem C2_counterexample :
    (promptCall decNone regEmpty "s1" [Block.dict (some "hi") (some "text") none]
        (.runs (.fails [some (some "par")] "boom"))).2.2
      = .response .endTurn := by
  decide

/-- Claim C2 (corrected): for every Run that fails with a backend error,
the failure is caught inside the Run: the sink receives the partial
chunks followed by one explanatory error notice and the call returns the
normal `end_turn` outcome; the failure is not propagated to the caller as
an error result. -/
theorem C2_failure_swallowed (decode : String → Option Bytes)
    (r : Registry) (sid : String) (blocks : List Block)
    (chunks : List Chunk) (err : String)
    (h : nonemptyContent decode blocks) :
    (promptCall decode r sid blocks (.runs (.fails chunks err))).2.2
      = .response .endTurn ∧
    (promptCall decode r sid blocks (.runs (.fails chunks err))).2.1
      = (streamDrive chunks).2.map SinkMsg.chunk ++
          [.errorNotice (errText err)] := by
  unfold nonemptyContent at h
  cases hm : r sid <;>
    simp [promptCall, hm, taskRun, handle_prompt, h]

/-- Witness for C2 at a concrete failing stream. -/
theorem C2_witness :
    nonemptyContent decNone [Block.dict (some "hi") (some "text") none] ∧
    ((promptCall decNone regEmpty "s1" [Block.dict (some "hi") (some "text") none]
        (.runs (.fails [some (some "par")] "boom"))).2.2
      = .response .endTurn ∧
     (promptCall decNone regEmpty "s1" [Block.dict (some "hi") (some "text") none]
        (.runs (.fails [some (some "par")] "boom"))).2.1
      = (streamDrive [some (some "par")]).2.map SinkMsg.chunk ++
          [.errorNotice (errText "boom")]) :=
  ⟨by decide,
   C2_failure_swallowed decNone regEmpty "s1"
     [Block.dict (some "hi") (some "text") none] [some (some "par")] "boom"
     (by decide)⟩

/-- Claim C8 (confirmed): a `prompt` call whose session id is not in the
registry does not fail: a fresh empty session is lazily created and
registered under that id, the call behaves exactly as if the registry had
already contained that fresh session, and the prompt is processed against
it (the id afterwards maps to the session produced by running the prompt
on an empty session). -/
theorem C8_lazy_session_creation (decode : String → Option Bytes)
    (r : Registry) (sid : String) (blocks : List Block) (ev : RunEvent)
    (h : r sid = none) :
    promptCall decode r sid blocks ev
      = promptCall decode (registrySet r sid {}) sid blocks ev ∧
    (promptCall decode r sid blocks ev).1 sid
      = some { (taskRun decode blocks {} ev).1 with pending_prompt := none } := by
  have hset : registrySet r sid {} sid = some {} := by simp [registrySet]
  constructor
  · simp [promptCall, h, hset]
  · simp only [promptCall, h]
    split <;> simp [registrySet]

/-- Witness for C8 at a concrete unknown session id. -/
theorem C8_witness :
    regEmpty "abc" = none ∧
    (promptCall decNone regEmpty "abc" [Block.obj (some "q") none none]
        (.runs (.completes [some (some "a")]))
      = promptCall decNone (registrySet regEmpty "abc" {}) "abc"
          [Block.obj (some "q") none none] (.runs (.completes [some (some "a")])) ∧
     (promptCall decNone regEmpty "abc" [Block.obj (some "q") none none]
        (.runs (.completes [some (some "a")]))).1 "abc"
      = some { (taskRun decNone [Block.obj (some "q") none none] {}
            (.runs (.completes [some (some "a")]))).1 with pending_prompt := none }) :=
  ⟨rfl,
   C8_lazy_session_creation decNone regEmpty "abc" [Block.obj (some "q") none none]
     (.runs (.completes [some (some "a")])) rfl⟩

/-- Counterexample for C1 as stated: `prompt` calls `Task.cancel()` on
the previous task and immediately creates the new one without awaiting
the old task's termination (agent.py lines 157-164), so under the event
loop the schedule [submit A; A's task starts; submit B; B's task starts]
reaches a state in which the old Run is still executing (cancellation
requested but not yet delivered — its unwinding happens at a later loop
step) while the new Run is already executing: two Runs are active for the
same session at one instant. -/
theorem C1_counterexample :
    (runSteps demoInit
        [.promptBody 0, .taskStart 0, .promptBody 1, .taskStart 1]).tasks[0]?
      = some ⟨.running, true⟩ ∧
    (runSteps demoInit
        [.promptBody 0, .taskStart 0, .promptBody 1, .taskStart 1]).tasks[1]?
      = some ⟨.running, false⟩ ∧
    activeRuns (runSteps demoInit
        [.promptBody 0, .taskStart 0, .promptBody 1, .taskStart 1]) = 2 := by
  decide

/-- Claim C1 (corrected): when `submit` runs while a previous Run is
pending, the executor signals cancellation to the old Run and installs
the new Run immediately, *without* awaiting the old Run's termination:
the submit step leaves the old task's status unchanged (only its
cancel-requested flag is set) and registers a freshly created task as the
session's pending Run, so the old and the new Run may be active
simultaneously. -/
theorem C1_cancel_without_await (s : MState) (p t0 : Nat) (c : TaskCtl)
    (h1 : s.prompts[p]? = some .entered)
    (h2 : s.pending = some t0)
    (h3 : s.tasks[t0]? = some c)
    (h4 : c.status = .running) :
    (step s (.promptBody p)).tasks[t0]?
      = some { c with cancelRequested := true } ∧
    ((step s (.promptBody p)).tasks[t0]?).map TaskCtl.status
      = some c.status ∧
    (step s (.promptBody p)).pending = some s.tasks.length ∧
    (step s (.promptBody p)).tasks[s.tasks.length]? = some ⟨.created, false⟩ := by
  have ht0 : t0 < s.tasks.length := (List.getElem?_eq_some.mp h3).1
  have hreq : requestCancel s t0
      = { s with tasks := s.tasks.set t0 { c with cancelRequested := true } } := by
    simp [requestCancel, h3, h4]
  have hstep : step s (.promptBody p)
      = { pending := some s.tasks.length,
          tasks := s.tasks.set t0 { c with cancelRequested := true }
                    ++ [⟨.created, false⟩],
          prompts := s.prompts.set p (.awaiting s.tasks.length) } := by
    simp [step, h1, h2, hreq, List.length_set]
  have hget : (s.tasks.set t0 { c with cancelRequested := true }
        ++ [(⟨.created, false⟩ : TaskCtl)])[t0]?
      = some { c with cancelRequested := true } := by
    rw [List.getElem?_append_left (by simpa [List.length_set] using ht0)]
    simp [List.getElem?_set_self, ht0]
  rw [hstep]
  refine ⟨hget, ?_, rfl, ?_⟩
  · dsimp only
    rw [hget]
    rfl
  · dsimp only
    rw [List.getElem?_append_right (by simp [List.length_set])]
    simp [List.length_set]

/-- Witness for C1's corrected statement, at the state reached after
submit A and the start of A's task. -/
theorem C1_witness :
    ((runSteps demoInit [.promptBody 0, .taskStart 0]).prompts[1]?
        = some .entered) ∧
    ((runSteps demoInit [.promptBody 0, .taskStart 0]).pending = some 0) ∧
    ((runSteps demoInit [.promptBody 0, .taskStart 0]).tasks[0]?
        = some ⟨.running, false⟩) ∧
    ((⟨.running, false⟩ : TaskCtl).status = .running) ∧
    ((step (runSteps demoInit [.promptBody 0, .taskStart 0]) (.promptBody 1)).tasks[0]?
        = some { (⟨.running, false⟩ : TaskCtl) with cancelRequested := true } ∧
     ((step (runSteps demoInit [.promptBody 0, .taskStart 0]) (.promptBody 1)).tasks[0]?).map
          TaskCtl.status
        = some (⟨.running, false⟩ : TaskCtl).status ∧
     (step (runSteps demoInit [.promptBody 0, .taskStart 0]) (.promptBody 1)).pending
        = some (runSteps demoInit [.promptBody 0, .taskStart 0]).tasks.length ∧
     (step (runSteps demoInit [.promptBody 0, .taskStart 0]) (.promptBody 1)).tasks[(runSteps
          demoInit [.promptBody 0, .taskStart 0]).tasks.length]?
        = some ⟨.created, false⟩) :=
  ⟨by decide, by decide, by decide, by decide,
   C1_cancel_without_await (runSteps demoInit [.promptBody 0, .taskStart 0])
     1 0 ⟨.running, false⟩ (by decide) (by decide) (by decide) (by decide)⟩

/-- Claim C9 (confirmed): whenever a `prompt` call returns, the `finally`
clause sets the session's `pending_prompt` to `None` unconditionally —
including in the superseded-call scenario, where the first call's return
overwrites the reference the superseding call installed for its new Run:
after [submit A; A's task starts; submit B; B's task starts; A's task
cancelled; A returns], `pending_prompt` is `None` while B's Run is still
executing, so a subsequent `cancel` finds no pending Run and is a
no-op. -/
theorem C9_pending_reset_unconditionally (s : MState) (p t : Nat)
    (h1 : s.prompts[p]? = some (.awaiting t))
    (h2 : (s.tasks[t]?).map TaskCtl.status = some .doneOk ∨
          (s.tasks[t]?).map TaskCtl.status = some .doneCancelled) :
    (step s (.promptResume p)).pending = none ∧
    (runSteps demoInit [.promptBody 0, .taskStart 0, .promptBody 1, .taskStart 1,
        .taskCancelDeliver 0, .promptResume 0]).pending = none ∧
    (runSteps demoInit [.promptBody 0, .taskStart 0, .promptBody 1, .taskStart 1,
        .taskCancelDeliver 0, .promptResume 0]).tasks[1]?
      = some ⟨.running, false⟩ ∧
    (runSteps demoInit [.promptBody 0, .taskStart 0, .promptBody 1, .taskStart 1,
        .taskCancelDeliver 0, .promptResume 0]).prompts[0]?
      = some (.finished .cancelled) ∧
    step (runSteps demoInit [.promptBody 0, .taskStart 0, .promptBody 1,
        .taskStart 1, .taskCancelDeliver 0, .promptResume 0]) .cancelCall
      = runSteps demoInit [.promptBody 0, .taskStart 0, .promptBody 1,
          .taskStart 1, .taskCancelDeliver 0, .promptResume 0] := by
  refine ⟨?_, by decide, by decide, by decide, by decide⟩
  rcases h2 with h2 | h2 <;>
  · rcases Option.map_eq_some'.mp h2 with ⟨c, hc, hst⟩
    simp [step, h1, hc, hst]

/-- Witness for C9 at the state just before the superseded call A
resumes. -/
theorem C9_witness :
    ((runSteps demoInit [.promptBody 0, .taskStart 0, .promptBody 1, .taskStart 1,
        .taskCancelDeliver 0]).prompts[0]? = some (.awaiting 0)) ∧
    (((runSteps demoInit [.promptBody 0, .taskStart 0, .promptBody 1, .taskStart 1,
        .taskCancelDeliver 0]).tasks[0]?).map TaskCtl.status
      = some .doneCancelled) ∧
    (step (runSteps demoInit [.promptBody 0, .taskStart 0, .promptBody 1,
        .taskStart 1, .taskCancelDeliver 0]) (.promptResume 0)).pending = none :=
  ⟨by decide, by decide,
   (C9_pending_reset_unconditionally
     (runSteps demoInit [.promptBody 0, .taskStart 0, .promptBody 1, .taskStart 1,
       .taskCancelDeliver 0]) 0 0 (by decide) (Or.inr (by decide))).1⟩
